import Mathlib

/-!
Verification of the enumeration / classification layer of `go-libzfs`
(`common.go`): pool status, pool state, vdev state and aux taxonomies,
property registries, the ZFS error-code constants and the last-error bridge.

Go `int` is embedded as `Int`; the `uint64`-backed enumerations are embedded
as `Nat` (a `uint64` is never negative, and every renderer below only
compares its argument for equality against small constants, so the behaviour
on all of `Nat` coincides with the behaviour on the `uint64` range).
Each Go `String()` method (an equality `switch` with a `default` arm) is
embedded as the corresponding chain of `if`-tests in source order.
-/

/-- Go type `PoolStatus int` (src/common.go). -/
abbrev PoolStatus := Int

def PoolStatusCorruptCache : PoolStatus := 0
def PoolStatusMissingDevR : PoolStatus := 1
def PoolStatusMissingDevNr : PoolStatus := 2
def PoolStatusCorruptLabelR : PoolStatus := 3
def PoolStatusCorruptLabelNr : PoolStatus := 4
def PoolStatusBadGUIDSum : PoolStatus := 5
def PoolStatusCorruptPool : PoolStatus := 6
def PoolStatusCorruptData : PoolStatus := 7
def PoolStatusFailingDev : PoolStatus := 8
def PoolStatusVersionNewer : PoolStatus := 9
def PoolStatusHostidMismatch : PoolStatus := 10
def PoolStatusIoFailureWait : PoolStatus := 11
def PoolStatusIoFailureContinue : PoolStatus := 12
def PoolStatusBadLog : PoolStatus := 13
def PoolStatusErrata : PoolStatus := 14
def PoolStatusUnsupFeatRead : PoolStatus := 15
def PoolStatusUnsupFeatWrite : PoolStatus := 16
def PoolStatusFaultedDevR : PoolStatus := 17
def PoolStatusFaultedDevNr : PoolStatus := 18
def PoolStatusVersionOlder : PoolStatus := 19
def PoolStatusFeatDisabled : PoolStatus := 20
def PoolStatusResilvering : PoolStatus := 21
def PoolStatusOfflineDev : PoolStatus := 22
def PoolStatusRemovedDev : PoolStatus := 23
def PoolStatusOk : PoolStatus := 24

/-- Embeds the Go method `PoolStatus.String` (src/common.go): an equality
switch over the defined statuses with default arm `"UNKNOWN"`. -/
def poolStatusString (s : PoolStatus) : String :=
  if s = PoolStatusCorruptCache then "corrupt cache"
  else if s = PoolStatusMissingDevR then "missing device; replicas available"
  else if s = PoolStatusMissingDevNr then "missing device; no replicas available"
  else if s = PoolStatusCorruptLabelR then "bad device label; replicas available"
  else if s = PoolStatusCorruptLabelNr then "bad device label; no replicas available"
  else if s = PoolStatusBadGUIDSum then "bad device GUID checksum"
  else if s = PoolStatusCorruptPool then "corrupt pool metadata"
  else if s = PoolStatusCorruptData then "corrupt user data"
  else if s = PoolStatusFailingDev then "device(s) failing"
  else if s = PoolStatusVersionNewer then "on-disk version too new; unsupported"
  else if s = PoolStatusHostidMismatch then "host ID mismatch; last accessed by another system"
  else if s = PoolStatusIoFailureWait then "failed I/O; failmode is \x27wait\x27"
  else if s = PoolStatusIoFailureContinue then "failed I/O; failmodde is \x27continue\x27"
  else if s = PoolStatusBadLog then "cannot read log chain(s)"
  else if s = PoolStatusErrata then "informational errata available"
  else if s = PoolStatusUnsupFeatRead then
    "pool is using unsupported features that are required for read access"
  else if s = PoolStatusUnsupFeatWrite then
    "pool is using unsupported features that are required for write access"
  else if s = PoolStatusFaultedDevR then "device faulted; replicas available"
  else if s = PoolStatusFaultedDevNr then "device faulted; no replicas available"
  else if s = PoolStatusVersionOlder then "on-disk version is old and can be upgraded"
  else if s = PoolStatusFeatDisabled then "supported features are disabled"
  else if s = PoolStatusResilvering then "resilvering (scrubbing) in progress"
  else if s = PoolStatusOfflineDev then "device(s) offline"
  else if s = PoolStatusRemovedDev then "device(s) removed"
  else if s = PoolStatusOk then "healthy"
  else "UNKNOWN"

/-- The fixed descriptions of the 25 defined pool statuses, in value order. -/
def poolStatusDescriptions : List String :=
  ["corrupt cache",
   "missing device; replicas available",
   "missing device; no replicas available",
   "bad device label; replicas available",
   "bad device label; no replicas available",
   "bad device GUID checksum",
   "corrupt pool metadata",
   "corrupt user data",
   "device(s) failing",
   "on-disk version too new; unsupported",
   "host ID mismatch; last accessed by another system",
   "failed I/O; failmode is \x27wait\x27",
   "failed I/O; failmodde is \x27continue\x27",
   "cannot read log chain(s)",
   "informational errata available",
   "pool is using unsupported features that are required for read access",
   "pool is using unsupported features that are required for write access",
   "device faulted; replicas available",
   "device faulted; no replicas available",
   "on-disk version is old and can be upgraded",
   "supported features are disabled",
   "resilvering (scrubbing) in progress",
   "device(s) offline",
   "device(s) removed",
   "healthy"]

/-- Go type `PoolState uint64` (src/common.go). -/
abbrev PoolState := Nat

def PoolStateActive : PoolState := 0
def PoolStateExported : PoolState := 1
def PoolStateDestroyed : PoolState := 2
def PoolStateSpare : PoolState := 3
def PoolStateL2cache : PoolState := 4
def PoolStateUninitialized : PoolState := 5
def PoolStateUnavail : PoolState := 6
def PoolStatePotentiallyActive : PoolState := 7

/-- Embeds the Go method `PoolState.String` (src/common.go). -/
def poolStateString (s : PoolState) : String :=
  if s = PoolStateActive then "active"
  else if s = PoolStateExported then "exported"
  else if s = PoolStateDestroyed then "destroyed"
  else if s = PoolStateSpare then "spare"
  else if s = PoolStateL2cache then "L2 cache"
  else if s = PoolStateUninitialized then "uninitialized"
  else if s = PoolStateUnavail then "unavailable"
  else if s = PoolStatePotentiallyActive then "potentially active"
  else "UNKNOWN"

/-- The fixed descriptions of the 8 defined pool states, in value order. -/
def poolStateDescriptions : List String :=
  ["active", "exported", "destroyed", "spare", "L2 cache", "uninitialized",
   "unavailable", "potentially active"]

/-- Go type `VDevState uint64` (src/common.go). Vdev states are ordered from
least to most healthy; a vdev that is `VDevStateCantOpen` or below is
considered unusable. -/
abbrev VDevState := Nat

def VDevStateUnknown : VDevState := 0
def VDevStateClosed : VDevState := 1
def VDevStateOffline : VDevState := 2
def VDevStateRemoved : VDevState := 3
def VDevStateCantOpen : VDevState := 4
def VDevStateFaulted : VDevState := 5
def VDevStateDegraded : VDevState := 6
def VDevStateHealthy : VDevState := 7

/-- The eight defined vdev states, in declaration (= health) order. -/
def definedVDevStates : List VDevState :=
  [VDevStateUnknown, VDevStateClosed, VDevStateOffline, VDevStateRemoved,
   VDevStateCantOpen, VDevStateFaulted, VDevStateDegraded, VDevStateHealthy]

/-- Embeds the Go method `VDevState.String` (src/common.go). -/
def vdevStateString (s : VDevState) : String :=
  if s = VDevStateUnknown then "uninitialized (or perhaps unknown?)"
  else if s = VDevStateClosed then "closed"
  else if s = VDevStateOffline then "offline"
  else if s = VDevStateRemoved then "removed"
  else if s = VDevStateCantOpen then "cannot open"
  else if s = VDevStateFaulted then "faulted"
  else if s = VDevStateDegraded then "degraded"
  else if s = VDevStateHealthy then "online"
  else "UNKNOWN"

/-- The fixed descriptions of the 8 defined vdev states, in value order. -/
def vdevStateDescriptions : List String :=
  ["uninitialized (or perhaps unknown?)", "closed", "offline", "removed",
   "cannot open", "faulted", "degraded", "online"]

/-- Modelled from the spec: `isUsable` does not appear in src/common.go (only
its defining comment, "a vdev that is `VDevStateCantOpen` or below is
considered unusable", does); the spec gives the contract
`isUsable(state) = state > CantOpen`. -/
def isUsable (s : VDevState) : Bool :=
  decide (s > VDevStateCantOpen)

/-- Go type `VDevAux uint64` (src/common.go): why a vdev cannot be opened. -/
abbrev VDevAux := Nat

def VDevAuxNone : VDevAux := 0
def VDevAuxOpenFailed : VDevAux := 1
def VDevAuxCorruptData : VDevAux := 2
def VDevAuxNoReplicas : VDevAux := 3
def VDevAuxBadGUIDSum : VDevAux := 4
def VDevAuxTooSmall : VDevAux := 5
def VDevAuxBadLabel : VDevAux := 6
def VDevAuxVersionNewer : VDevAux := 7
def VDevAuxVersionOlder : VDevAux := 8
def VDevAuxUnsupFeat : VDevAux := 9
def VDevAuxSpared : VDevAux := 10
def VDevAuxErrExceeded : VDevAux := 11
def VDevAuxIOFailure : VDevAux := 12
def VDevAuxBadLog : VDevAux := 13
def VDevAuxExternal : VDevAux := 14
def VDevAuxSplitPool : VDevAux := 15

/-- Modelled from the spec: src/common.go declares the `VDevAux` constants but
no rendering method for them; the spec says `VDevAux.describe()` renders a
fixed string per aux code. The fixed strings are taken from the per-constant
descriptions in src/common.go, with the renderer totalised by the same
`"UNKNOWN"` fallback discipline the spec prescribes for all renderers. -/
def vdevAuxString (a : VDevAux) : String :=
  if a = VDevAuxNone then "no error"
  else if a = VDevAuxOpenFailed then "cannot open device"
  else if a = VDevAuxCorruptData then "bad label or disk contents"
  else if a = VDevAuxNoReplicas then "insufficient number of replicas"
  else if a = VDevAuxBadGUIDSum then "vdev guid sum does not match"
  else if a = VDevAuxTooSmall then "vdev size is too small"
  else if a = VDevAuxBadLabel then "the label is OK but invalid"
  else if a = VDevAuxVersionNewer then "on-disk version is too new"
  else if a = VDevAuxVersionOlder then "on-disk version is too old"
  else if a = VDevAuxUnsupFeat then "unsupported features"
  else if a = VDevAuxSpared then "hot spare used in another pool"
  else if a = VDevAuxErrExceeded then "too many errors"
  else if a = VDevAuxIOFailure then "experienced I/O failure"
  else if a = VDevAuxBadLog then "cannot read log chain(s)"
  else if a = VDevAuxExternal then "external diagnosis"
  else if a = VDevAuxSplitPool then "vdev was split off into another pool"
  else "UNKNOWN"

/-- Go type `PoolScanFunc uint64` (src/common.go). -/
abbrev PoolScanFunc := Nat

def PoolScanFuncNone : PoolScanFunc := 0
def PoolScanFuncScrub : PoolScanFunc := 1
def PoolScanFuncResilver : PoolScanFunc := 2

/-- Embeds the Go method `PoolScanFunc.String` (src/common.go). -/
def poolScanFuncString (f : PoolScanFunc) : String :=
  if f = PoolScanFuncNone then "none"
  else if f = PoolScanFuncScrub then "scrub"
  else if f = PoolScanFuncResilver then "resilver"
  else "<UNKNOWN-VALUE>"

/-- The fixed descriptions of the 3 defined scan functions, in value order. -/
def poolScanFuncDescriptions : List String := ["none", "scrub", "resilver"]

/-- Go type `DSLScanState uint64` (src/common.go). -/
abbrev DSLScanState := Nat

def DSLScanStateNone : DSLScanState := 0
def DSLScanStateScanning : DSLScanState := 1
def DSLScanStateFinished : DSLScanState := 2
def DSLScanStateCanceled : DSLScanState := 3

/-- Embeds the Go method `DSLScanState.String` (src/common.go). -/
def dslScanStateString (s : DSLScanState) : String :=
  if s = DSLScanStateNone then "none"
  else if s = DSLScanStateScanning then "scanning"
  else if s = DSLScanStateFinished then "finished"
  else if s = DSLScanStateCanceled then "canceled"
  else "<UNKNOWN-VALUE>"

/-- The fixed descriptions of the 4 defined scan states, in value order. -/
def dslScanStateDescriptions : List String :=
  ["none", "scanning", "finished", "canceled"]

/-!
ZFS error constants (src/common.go). In the Go `const` block, `ESuccess = 0`
occupies iota index 0 and `ENomem = 2000 << iota` occupies iota index 1; the
expression `2000 << iota` is then repeated implicitly for every following
constant, so the k-th constant of the block (k ≥ 1) has the value
`2000 <<< k`.
-/

def ESuccess : Nat := 0
def ENomem : Nat := 2000 <<< 1
def EBadprop : Nat := 2000 <<< 2
def EPropreadonly : Nat := 2000 <<< 3
def EProptype : Nat := 2000 <<< 4
def EPropnoninherit : Nat := 2000 <<< 5
def EPropspace : Nat := 2000 <<< 6
def EBadtype : Nat := 2000 <<< 7
def EBusy : Nat := 2000 <<< 8
def EExists : Nat := 2000 <<< 9
def ENoent : Nat := 2000 <<< 10
def EBadstream : Nat := 2000 <<< 11
def EDsreadonly : Nat := 2000 <<< 12
def EVoltoobig : Nat := 2000 <<< 13
def EInvalidname : Nat := 2000 <<< 14
def EBadrestore : Nat := 2000 <<< 15
def EBadbackup : Nat := 2000 <<< 16
def EBadtarget : Nat := 2000 <<< 17
def ENodevice : Nat := 2000 <<< 18
def EBaddev : Nat := 2000 <<< 19
def ENoreplicas : Nat := 2000 <<< 20
def EResilvering : Nat := 2000 <<< 21
def EBadversion : Nat := 2000 <<< 22
def EPoolunavail : Nat := 2000 <<< 23
def EDevoverflow : Nat := 2000 <<< 24
def EBadpath : Nat := 2000 <<< 25
def ECrosstarget : Nat := 2000 <<< 26
def EZoned : Nat := 2000 <<< 27
def EMountfailed : Nat := 2000 <<< 28
def EUmountfailed : Nat := 2000 <<< 29
def EUnsharenfsfailed : Nat := 2000 <<< 30
def ESharenfsfailed : Nat := 2000 <<< 31
def EPerm : Nat := 2000 <<< 32
def ENospc : Nat := 2000 <<< 33
def EFault : Nat := 2000 <<< 34
def EIo : Nat := 2000 <<< 35
def EIntr : Nat := 2000 <<< 36
def EIsspare : Nat := 2000 <<< 37
def EInvalconfig : Nat := 2000 <<< 38
def ERecursive : Nat := 2000 <<< 39
def ENohistory : Nat := 2000 <<< 40
def EPoolprops : Nat := 2000 <<< 41
def EPoolNotsup : Nat := 2000 <<< 42
def EPoolInvalarg : Nat := 2000 <<< 43
def ENametoolong : Nat := 2000 <<< 44
def EOpenfailed : Nat := 2000 <<< 45
def ENocap : Nat := 2000 <<< 46
def ELabelfailed : Nat := 2000 <<< 47
def EBadwho : Nat := 2000 <<< 48
def EBadperm : Nat := 2000 <<< 49
def EBadpermset : Nat := 2000 <<< 50
def ENodelegation : Nat := 2000 <<< 51
def EUnsharesmbfailed : Nat := 2000 <<< 52
def ESharesmbfailed : Nat := 2000 <<< 53
def EBadcache : Nat := 2000 <<< 54
def EIsl2CACHE : Nat := 2000 <<< 55
def EVdevnotsup : Nat := 2000 <<< 56
def ENotsup : Nat := 2000 <<< 57
def EActiveSpare : Nat := 2000 <<< 58
def EUnplayedLogs : Nat := 2000 <<< 59
def EReftagRele : Nat := 2000 <<< 60
def EReftagHold : Nat := 2000 <<< 61
def ETagtoolong : Nat := 2000 <<< 62
def EPipefailed : Nat := 2000 <<< 63
def EThreadcreatefailed : Nat := 2000 <<< 64
def EPostsplitOnline : Nat := 2000 <<< 65
def EScrubbing : Nat := 2000 <<< 66
def ENoScrub : Nat := 2000 <<< 67
def EDiff : Nat := 2000 <<< 68
def EDiffdata : Nat := 2000 <<< 69
def EPoolreadonly : Nat := 2000 <<< 70
def EUnknown : Nat := 2000 <<< 71

/-- All named ZFS error constants of src/common.go, in declaration order. -/
def zfsErrorCodes : List Nat :=
  [ESuccess, ENomem, EBadprop, EPropreadonly, EProptype, EPropnoninherit,
   EPropspace, EBadtype, EBusy, EExists, ENoent, EBadstream, EDsreadonly,
   EVoltoobig, EInvalidname, EBadrestore, EBadbackup, EBadtarget, ENodevice,
   EBaddev, ENoreplicas, EResilvering, EBadversion, EPoolunavail,
   EDevoverflow, EBadpath, ECrosstarget, EZoned, EMountfailed, EUmountfailed,
   EUnsharenfsfailed, ESharenfsfailed, EPerm, ENospc, EFault, EIo, EIntr,
   EIsspare, EInvalconfig, ERecursive, ENohistory, EPoolprops, EPoolNotsup,
   EPoolInvalarg, ENametoolong, EOpenfailed, ENocap, ELabelfailed, EBadwho,
   EBadperm, EBadpermset, ENodelegation, EUnsharesmbfailed, ESharesmbfailed,
   EBadcache, EIsl2CACHE, EVdevnotsup, ENotsup, EActiveSpare, EUnplayedLogs,
   EReftagRele, EReftagHold, ETagtoolong, EPipefailed, EThreadcreatefailed,
   EPostsplitOnline, EScrubbing, ENoScrub, EDiff, EDiffdata, EPoolreadonly,
   EUnknown]

/-- The non-success error constants (`ENomem` through `EUnknown`), in
declaration order. -/
def zfsErrorNonSuccess : List Nat := zfsErrorCodes.tail

/-!
Property registries. `Prop` in Go is `int`; the pool-property constants run
from `PoolPropName = 0` up to the bound `PoolNumProps`, the dataset-property
constants from `DatasetPropType = 0` up to the bound `DatasetNumProps`.
-/

def PoolPropName : Nat := 0
def PoolNumProps : Nat := 27
def DatasetPropType : Nat := 0
def DatasetNumProps : Nat := 74

/-- Canonical names of the 27 pool properties, in identifier order
(`PoolPropName` .. `PoolPropTName` of src/common.go, lower-cased). -/
def poolPropNames : List String :=
  ["name", "size", "capacity", "altroot", "health", "guid", "version",
   "bootfs", "delegation", "autoreplace", "cachefile", "failuremode",
   "listsnaps", "autoexpand", "dedupditto", "dedupratio", "free",
   "allocated", "readonly", "ashift", "comment", "expandsz", "freeing",
   "fragmentaion", "leaked", "maxblocksize", "tname"]

/-- Canonical names of the 74 dataset properties, in identifier order
(`DatasetPropType` .. `DatasetPropOverlay` of src/common.go, lower-cased). -/
def datasetPropNames : List String :=
  ["type", "creation", "used", "available", "referenced", "compressratio",
   "mounted", "origin", "quota", "reservation", "volsize", "volblocksize",
   "recordsize", "mountpoint", "sharenfs", "checksum", "compression",
   "atime", "devices", "exec", "setuid", "readonly", "zoned", "snapdir",
   "private", "aclinherit", "createtxg", "name", "canmount", "iscsioptions",
   "xattr", "numclones", "copies", "version", "utf8only", "normalize",
   "case", "vscan", "nbmand", "sharesmb", "refquota", "refreservation",
   "guid", "primarycache", "secondarycache", "usedsnap", "usedds",
   "usedchild", "usedrefreserv", "useraccounting", "stmfshareinfo",
   "deferdestroy", "userrefs", "logbias", "unique", "objsetid", "dedup",
   "mlslabel", "sync", "refratio", "written", "clones", "logicalused",
   "logicalreferenced", "inconsistent", "snapdev", "acltype",
   "selinuxcontext", "selinuxfscontext", "selinuxdefcontext",
   "selinuxrootcontext", "relatime", "redundantmetadata", "overlay"]

/-- Modelled from the spec: src/common.go declares the pool-property
identifiers but no identifier-to-name function; the Property Registry
contract says the lookup returns the canonical name over the closed range
`[PoolPropName, PoolNumProps)` and fails with an `ENotsup`-classified
`ErrorCode` outside it, never a silent default. -/
def poolPropertyToName (p : Nat) : Except Nat String :=
  match poolPropNames.get? p with
  | some n => Except.ok n
  | none => Except.error ENotsup

/-- Modelled from the spec: dataset-namespace analogue of
`poolPropertyToName`, over `[DatasetPropType, DatasetNumProps)`. -/
def datasetPropertyToName (p : Nat) : Except Nat String :=
  match datasetPropNames.get? p with
  | some n => Except.ok n
  | none => Except.error ENotsup

/-!
Last-error bridge (src/common.go). The engine handle's observable state is
its last-error register: the error number returned by `libzfs_errno` and the
text returned by `libzfs_error_description`.
-/

/-- The last-error register of the process-wide libzfs handle. -/
structure LibzfsHandle where
  mk ::
  errno : Int
  errorDescription : String

/-- Embeds the Go function `LastError` (src/common.go): when the engine's
error number is 0 it returns no error (`none`); otherwise it returns an
error carrying exactly the engine's own textual description. -/
def LastError (h : LibzfsHandle) : Option String :=
  if h.errno = 0 then none else some h.errorDescription

/-- Modelled from the spec: the C helper `clear_last_error` is declared in
the repository's C shim (zpool.h / zfs.h), which is not under src; the spec
says it unconditionally resets the engine's last-error state to empty. -/
def clear_last_error (_h : LibzfsHandle) : LibzfsHandle :=
  LibzfsHandle.mk 0 ""

/-- Embeds the Go function `ClearLastError` (src/common.go): it first
captures `LastError()`, then calls `clear_last_error` on the handle and
returns the captured value. The pair is (returned value, handle state after
the call). -/
def ClearLastError (h : LibzfsHandle) : Option String × LibzfsHandle :=
  (LastError h, clear_last_error h)

/-!
Helper lemmas: behaviour of each renderer outside its defined range.
-/

lemma poolStatusString_default (s : Int) (h : s < 0 ∨ 24 < s) :
    poolStatusString s = "UNKNOWN" := by
  unfold poolStatusString
  rw [if_neg (show s ≠ PoolStatusCorruptCache by unfold PoolStatusCorruptCache; omega),
      if_neg (show s ≠ PoolStatusMissingDevR by unfold PoolStatusMissingDevR; omega),
      if_neg (show s ≠ PoolStatusMissingDevNr by unfold PoolStatusMissingDevNr; omega),
      if_neg (show s ≠ PoolStatusCorruptLabelR by unfold PoolStatusCorruptLabelR; omega),
      if_neg (show s ≠ PoolStatusCorruptLabelNr by unfold PoolStatusCorruptLabelNr; omega),
      if_neg (show s ≠ PoolStatusBadGUIDSum by unfold PoolStatusBadGUIDSum; omega),
      if_neg (show s ≠ PoolStatusCorruptPool by unfold PoolStatusCorruptPool; omega),
      if_neg (show s ≠ PoolStatusCorruptData by unfold PoolStatusCorruptData; omega),
      if_neg (show s ≠ PoolStatusFailingDev by unfold PoolStatusFailingDev; omega),
      if_neg (show s ≠ PoolStatusVersionNewer by unfold PoolStatusVersionNewer; omega),
      if_neg (show s ≠ PoolStatusHostidMismatch by unfold PoolStatusHostidMismatch; omega),
      if_neg (show s ≠ PoolStatusIoFailureWait by unfold PoolStatusIoFailureWait; omega),
      if_neg (show s ≠ PoolStatusIoFailureContinue by unfold PoolStatusIoFailureContinue; omega),
      if_neg (show s ≠ PoolStatusBadLog by unfold PoolStatusBadLog; omega),
      if_neg (show s ≠ PoolStatusErrata by unfold PoolStatusErrata; omega),
      if_neg (show s ≠ PoolStatusUnsupFeatRead by unfold PoolStatusUnsupFeatRead; omega),
      if_neg (show s ≠ PoolStatusUnsupFeatWrite by unfold PoolStatusUnsupFeatWrite; omega),
      if_neg (show s ≠ PoolStatusFaultedDevR by unfold PoolStatusFaultedDevR; omega),
      if_neg (show s ≠ PoolStatusFaultedDevNr by unfold PoolStatusFaultedDevNr; omega),
      if_neg (show s ≠ PoolStatusVersionOlder by unfold PoolStatusVersionOlder; omega),
      if_neg (show s ≠ PoolStatusFeatDisabled by unfold PoolStatusFeatDisabled; omega),
      if_neg (show s ≠ PoolStatusResilvering by unfold PoolStatusResilvering; omega),
      if_neg (show s ≠ PoolStatusOfflineDev by unfold PoolStatusOfflineDev; omega),
      if_neg (show s ≠ PoolStatusRemovedDev by unfold PoolStatusRemovedDev; omega),
      if_neg (show s ≠ PoolStatusOk by unfold PoolStatusOk; omega)]

lemma poolStateString_default (s : Nat) (h : 8 ≤ s) : poolStateString s = "UNKNOWN" := by
  unfold poolStateString
  rw [if_neg (show s ≠ PoolStateActive by unfold PoolStateActive; omega),
      if_neg (show s ≠ PoolStateExported by unfold PoolStateExported; omega),
      if_neg (show s ≠ PoolStateDestroyed by unfold PoolStateDestroyed; omega),
      if_neg (show s ≠ PoolStateSpare by unfold PoolStateSpare; omega),
      if_neg (show s ≠ PoolStateL2cache by unfold PoolStateL2cache; omega),
      if_neg (show s ≠ PoolStateUninitialized by unfold PoolStateUninitialized; omega),
      if_neg (show s ≠ PoolStateUnavail by unfold PoolStateUnavail; omega),
      if_neg (show s ≠ PoolStatePotentiallyActive by unfold PoolStatePotentiallyActive; omega)]

lemma vdevStateString_default (s : Nat) (h : 8 ≤ s) : vdevStateString s = "UNKNOWN" := by
  unfold vdevStateString
  rw [if_neg (show s ≠ VDevStateUnknown by unfold VDevStateUnknown; omega),
      if_neg (show s ≠ VDevStateClosed by unfold VDevStateClosed; omega),
      if_neg (show s ≠ VDevStateOffline by unfold VDevStateOffline; omega),
      if_neg (show s ≠ VDevStateRemoved by unfold VDevStateRemoved; omega),
      if_neg (show s ≠ VDevStateCantOpen by unfold VDevStateCantOpen; omega),
      if_neg (show s ≠ VDevStateFaulted by unfold VDevStateFaulted; omega),
      if_neg (show s ≠ VDevStateDegraded by unfold VDevStateDegraded; omega),
      if_neg (show s ≠ VDevStateHealthy by unfold VDevStateHealthy; omega)]

lemma poolScanFuncString_default (f : Nat) (h : 3 ≤ f) :
    poolScanFuncString f = "<UNKNOWN-VALUE>" := by
  unfold poolScanFuncString
  rw [if_neg (show f ≠ PoolScanFuncNone by unfold PoolScanFuncNone; omega),
      if_neg (show f ≠ PoolScanFuncScrub by unfold PoolScanFuncScrub; omega),
      if_neg (show f ≠ PoolScanFuncResilver by unfold PoolScanFuncResilver; omega)]

lemma dslScanStateString_default (s : Nat) (h : 4 ≤ s) :
    dslScanStateString s = "<UNKNOWN-VALUE>" := by
  unfold dslScanStateString
  rw [if_neg (show s ≠ DSLScanStateNone by unfold DSLScanStateNone; omega),
      if_neg (show s ≠ DSLScanStateScanning by unfold DSLScanStateScanning; omega),
      if_neg (show s ≠ DSLScanStateFinished by unfold DSLScanStateFinished; omega),
      if_neg (show s ≠ DSLScanStateCanceled by unfold DSLScanStateCanceled; omega)]

/-- C1: every renderer is total. Each of the five `String` functions maps
every defined value to its fixed description (the renderer agrees everywhere
with a lookup into the literal description list), maps every input outside
the defined range — including every negative `PoolStatus` — to the literal
sentinel `"UNKNOWN"` (pool status, pool state, vdev state) or
`"<UNKNOWN-VALUE>"` (scan func, scan state), and never returns an empty
string. -/
theorem claim_C1_renderers_total :
    (∀ s : Int, poolStatusString s =
        if s < 0 then "UNKNOWN" else poolStatusDescriptions.getD s.toNat "UNKNOWN")
  ∧ (∀ s : Nat, poolStateString s = poolStateDescriptions.getD s "UNKNOWN")
  ∧ (∀ s : Nat, vdevStateString s = vdevStateDescriptions.getD s "UNKNOWN")
  ∧ (∀ f : Nat,
      poolScanFuncString f = poolScanFuncDescriptions.getD f "<UNKNOWN-VALUE>")
  ∧ (∀ s : Nat,
      dslScanStateString s = dslScanStateDescriptions.getD s "<UNKNOWN-VALUE>")
  ∧ (∀ s : Int, 0 < (poolStatusString s).length)
  ∧ (∀ s : Nat, 0 < (poolStateString s).length)
  ∧ (∀ s : Nat, 0 < (vdevStateString s).length)
  ∧ (∀ f : Nat, 0 < (poolScanFuncString f).length)
  ∧ (∀ s : Nat, 0 < (dslScanStateString s).length) := by
  have hps : ∀ s : Int, poolStatusString s =
      if s < 0 then "UNKNOWN" else poolStatusDescriptions.getD s.toNat "UNKNOWN" := by
    intro s
    by_cases h0 : s < 0
    · rw [if_pos h0, poolStatusString_default s (Or.inl h0)]
    · rw [if_neg h0]
      push_neg at h0
      by_cases h1 : s < 25
      · interval_cases s <;> rfl
      · push_neg at h1
        have hl : poolStatusDescriptions.length = 25 := rfl
        rw [poolStatusString_default s (Or.inr (by omega)),
          List.getD_eq_default _ _ (by omega)]
  have hpst : ∀ s : Nat, poolStateString s = poolStateDescriptions.getD s "UNKNOWN" := by
    intro s
    by_cases h1 : s < 8
    · interval_cases s <;> rfl
    · push_neg at h1
      have hl : poolStateDescriptions.length = 8 := rfl
      rw [poolStateString_default s (by omega), List.getD_eq_default _ _ (by omega)]
  have hvs : ∀ s : Nat, vdevStateString s = vdevStateDescriptions.getD s "UNKNOWN" := by
    intro s
    by_cases h1 : s < 8
    · interval_cases s <;> rfl
    · push_neg at h1
      have hl : vdevStateDescriptions.length = 8 := rfl
      rw [vdevStateString_default s (by omega), List.getD_eq_default _ _ (by omega)]
  have hsf : ∀ f : Nat,
      poolScanFuncString f = poolScanFuncDescriptions.getD f "<UNKNOWN-VALUE>" := by
    intro f
    by_cases h1 : f < 3
    · interval_cases f <;> rfl
    · push_neg at h1
      have hl : poolScanFuncDescriptions.length = 3 := rfl
      rw [poolScanFuncString_default f (by omega), List.getD_eq_default _ _ (by omega)]
  have hss : ∀ s : Nat,
      dslScanStateString s = dslScanStateDescriptions.getD s "<UNKNOWN-VALUE>" := by
    intro s
    by_cases h1 : s < 4
    · interval_cases s <;> rfl
    · push_neg at h1
      have hl : dslScanStateDescriptions.length = 4 := rfl
      rw [dslScanStateString_default s (by omega), List.getD_eq_default _ _ (by omega)]
  refine ⟨hps, hpst, hvs, hsf, hss, ?_, ?_, ?_, ?_, ?_⟩
  · intro s
    rw [hps s]
    by_cases h0 : s < 0
    · rw [if_pos h0]; decide
    · rw [if_neg h0]
      push_neg at h0
      by_cases h1 : s < 25
      · have h2 : s.toNat < 25 := by omega
        interval_cases hh : s.toNat <;> decide
      · rw [List.getD_eq_default _ _ (show poolStatusDescriptions.length ≤ s.toNat by
          have hl : poolStatusDescriptions.length = 25 := rfl; omega)]
        decide
  · intro s
    rw [hpst s]
    by_cases h1 : s < 8
    · interval_cases s <;> decide
    · rw [List.getD_eq_default _ _ (show poolStateDescriptions.length ≤ s by
        have hl : poolStateDescriptions.length = 8 := rfl; omega)]
      decide
  · intro s
    rw [hvs s]
    by_cases h1 : s < 8
    · interval_cases s <;> decide
    · rw [List.getD_eq_default _ _ (show vdevStateDescriptions.length ≤ s by
        have hl : vdevStateDescriptions.length = 8 := rfl; omega)]
      decide
  · intro f
    rw [hsf f]
    by_cases h1 : f < 3
    · interval_cases f <;> decide
    · rw [List.getD_eq_default _ _ (show poolScanFuncDescriptions.length ≤ f by
        have hl : poolScanFuncDescriptions.length = 3 := rfl; omega)]
      decide
  · intro s
    rw [hss s]
    by_cases h1 : s < 4
    · interval_cases s <;> decide
    · rw [List.getD_eq_default _ _ (show dslScanStateDescriptions.length ≤ s by
        have hl : dslScanStateDescriptions.length = 4 := rfl; omega)]
      decide

/-- C2: the numeric `<` on `VDevState` is a strict total order on the eight
defined states (irreflexive, transitive, trichotomous), `VDevStateHealthy`
(value 7) is the unique maximum and `VDevStateUnknown` (value 0) the unique
minimum: every other defined state lies strictly below `Healthy` and
strictly above `Unknown`. -/
theorem claim_C2_vdev_state_order :
    VDevStateUnknown = 0 ∧ VDevStateHealthy = 7
  ∧ (∀ a ∈ definedVDevStates, ∀ b ∈ definedVDevStates, ∀ c ∈ definedVDevStates,
      a < b → b < c → a < c)
  ∧ (∀ a ∈ definedVDevStates, a < a → False)
  ∧ (∀ a ∈ definedVDevStates, ∀ b ∈ definedVDevStates, a < b ∨ a = b ∨ b < a)
  ∧ (∀ s ∈ definedVDevStates, s = VDevStateHealthy ∨ s < VDevStateHealthy)
  ∧ (∀ s ∈ definedVDevStates, s = VDevStateUnknown ∨ VDevStateUnknown < s) := by
  refine ⟨rfl, rfl, by decide, by decide, by decide, by decide, by decide⟩

/-- C2 witness: the order facts of `claim_C2_vdev_state_order` applied at
concrete defined states. -/
theorem claim_C2_vdev_state_order_witness :
    VDevStateUnknown < VDevStateHealthy
  ∧ VDevStateOffline < VDevStateHealthy
  ∧ VDevStateUnknown < VDevStateClosed := by
  obtain ⟨-, -, htrans, -, -, hmax, hmin⟩ := claim_C2_vdev_state_order
  exact ⟨htrans VDevStateUnknown (by decide) VDevStateClosed (by decide)
      VDevStateHealthy (by decide) (by decide) (by decide),
    (hmax VDevStateOffline (by decide)).resolve_left (by decide),
    (hmin VDevStateClosed (by decide)).resolve_left (by decide)⟩

/-- C3 counterexample: the differences between consecutive non-success error
constants are not a fixed amount. The Go `const` block repeats `2000 << iota`,
so `EBadprop - ENomem = 4000` while the very next consecutive difference
`EPropreadonly - EBadprop = 8000`, refuting the fixed-stride part of the
claim at the concrete constants `ENomem`, `EBadprop`, `EPropreadonly`. -/
theorem claim_C3_fixed_stride_counterexample :
    EBadprop - ENomem = 4000 ∧ EPropreadonly - EBadprop = 8000
  ∧ ((EPropreadonly - EBadprop == EBadprop - ENomem) = false) := by
  refine ⟨rfl, rfl, by decide⟩

/-- C3 amended: `ESuccess = 0`, every named error constant has a unique
numeric value, and the non-success values (`ENomem` through `EUnknown`) form
a geometric progression rather than a fixed-stride one: `ENomem = 4000` and
each consecutive constant in declaration order is exactly double its
predecessor (the k-th non-success constant is `2000 <<< k`), so the values
still never collide. -/
theorem claim_C3_error_codes_amended :
    ESuccess = 0 ∧ zfsErrorCodes.Nodup ∧ ENomem = 4000
  ∧ (((zfsErrorNonSuccess.zip zfsErrorNonSuccess.tail).all
      fun p => p.2 == 2 * p.1) = true) := by
  refine ⟨rfl, by decide, rfl, by decide⟩

/-- C4: over the closed pool range `[PoolPropName, PoolNumProps)` and dataset
range `[DatasetPropType, DatasetNumProps)`, the registry lookup always
returns a name, no two distinct identifiers of the same namespace get the
same name, and any identifier outside the closed range fails with the
`ENotsup` error code rather than a silent default. -/
theorem claim_C4_property_registry :
    (∀ p : Nat, PoolPropName ≤ p → p < PoolNumProps →
      ∃ n, poolPropertyToName p = Except.ok n)
  ∧ (∀ p q : Nat, p < PoolNumProps → q < PoolNumProps →
      poolPropertyToName p = poolPropertyToName q → p = q)
  ∧ (∀ p : Nat, PoolNumProps ≤ p → poolPropertyToName p = Except.error ENotsup)
  ∧ (∀ p : Nat, DatasetPropType ≤ p → p < DatasetNumProps →
      ∃ n, datasetPropertyToName p = Except.ok n)
  ∧ (∀ p q : Nat, p < DatasetNumProps → q < DatasetNumProps →
      datasetPropertyToName p = datasetPropertyToName q → p = q)
  ∧ (∀ p : Nat, DatasetNumProps ≤ p →
      datasetPropertyToName p = Except.error ENotsup) := by
  have hpl : poolPropNames.length = 27 := rfl
  have hdl : datasetPropNames.length = 74 := rfl
  have hpnd : poolPropNames.Nodup := by decide
  have hdnd : datasetPropNames.Nodup := by decide
  refine ⟨?_, ?_, ?_, ?_, ?_, ?_⟩
  · intro p _ hlt
    cases hg : poolPropNames.get? p with
    | none => rw [List.get?_eq_none] at hg; unfold PoolNumProps at hlt; omega
    | some n => exact ⟨n, by unfold poolPropertyToName; rw [hg]⟩
  · intro p q hp hq h
    have hp27 : p < poolPropNames.length := by unfold PoolNumProps at hp; omega
    apply List.get?_inj hp27 hpnd
    cases hgp : poolPropNames.get? p with
    | none => rw [List.get?_eq_none] at hgp; omega
    | some a =>
      have ha : poolPropertyToName p = Except.ok a := by
        unfold poolPropertyToName; rw [hgp]
      cases hgq : poolPropNames.get? q with
      | none =>
        have hb : poolPropertyToName q = Except.error ENotsup := by
          unfold poolPropertyToName; rw [hgq]
        rw [ha, hb] at h
        exact Except.noConfusion h
      | some b =>
        have hb : poolPropertyToName q = Except.ok b := by
          unfold poolPropertyToName; rw [hgq]
        rw [ha, hb] at h
        injection h with hab
        rw [hab]
  · intro p hge
    have hn : poolPropNames.get? p = none := by
      rw [List.get?_eq_none]; unfold PoolNumProps at hge; omega
    unfold poolPropertyToName; rw [hn]
  · intro p _ hlt
    cases hg : datasetPropNames.get? p with
    | none => rw [List.get?_eq_none] at hg; unfold DatasetNumProps at hlt; omega
    | some n => exact ⟨n, by unfold datasetPropertyToName; rw [hg]⟩
  · intro p q hp hq h
    have hp74 : p < datasetPropNames.length := by unfold DatasetNumProps at hp; omega
    apply List.get?_inj hp74 hdnd
    cases hgp : datasetPropNames.get? p with
    | none => rw [List.get?_eq_none] at hgp; omega
    | some a =>
      have ha : datasetPropertyToName p = Except.ok a := by
        unfold datasetPropertyToName; rw [hgp]
      cases hgq : datasetPropNames.get? q with
      | none =>
        have hb : datasetPropertyToName q = Except.error ENotsup := by
          unfold datasetPropertyToName; rw [hgq]
        rw [ha, hb] at h
        exact Except.noConfusion h
      | some b =>
        have hb : datasetPropertyToName q = Except.ok b := by
          unfold datasetPropertyToName; rw [hgq]
        rw [ha, hb] at h
        injection h with hab
        rw [hab]
  · intro p hge
    have hn : datasetPropNames.get? p = none := by
      rw [List.get?_eq_none]; unfold DatasetNumProps at hge; omega
    unfold datasetPropertyToName; rw [hn]

/-- C4 witness: the registry facts applied at concrete identifiers — a
defined pool identifier resolves, and the first out-of-range identifier of
each namespace fails with `ENotsup`. -/
theorem claim_C4_property_registry_witness :
    (∃ n, poolPropertyToName 3 = Except.ok n)
  ∧ poolPropertyToName PoolNumProps = Except.error ENotsup
  ∧ datasetPropertyToName DatasetNumProps = Except.error ENotsup := by
  obtain ⟨htot, -, herr, -, -, derr⟩ := claim_C4_property_registry
  exact ⟨htot 3 (by decide) (by decide), herr PoolNumProps (le_refl PoolNumProps),
    derr DatasetNumProps (le_refl DatasetNumProps)⟩

/-- C5: `LastError` returns no error at all (`none`, not an error wrapping
the empty string) whenever the engine's last-error number is 0, and
otherwise returns an error whose description is exactly the engine's own
textual description, unmodified. -/
theorem claim_C5_last_error (h : LibzfsHandle) :
    (h.errno = 0 → LastError h = none)
  ∧ (h.errno ≠ 0 → LastError h = some h.errorDescription) := by
  constructor
  · intro h0
    unfold LastError
    rw [if_pos h0]
  · intro h0
    unfold LastError
    rw [if_neg h0]

/-- C5 witness: `claim_C5_last_error` applied to a handle with no recorded
error and to a handle with error number 3 and description `"boom"`. -/
theorem claim_C5_last_error_witness :
    LastError (LibzfsHandle.mk 0 "") = none
  ∧ LastError (LibzfsHandle.mk 3 "boom") = some "boom" :=
  ⟨(claim_C5_last_error (LibzfsHandle.mk 0 "")).1 rfl,
   (claim_C5_last_error (LibzfsHandle.mk 3 "boom")).2 (by decide)⟩

/-- C6: for every prior engine state, `ClearLastError` returns exactly what
`LastError` would have returned at the moment of the call, and `LastError`
on the handle state left behind by `ClearLastError` returns no error. -/
theorem claim_C6_clear_then_read (h : LibzfsHandle) :
    (ClearLastError h).1 = LastError h
  ∧ LastError (ClearLastError h).2 = none :=
  ⟨rfl, rfl⟩

/-- C7: the raw pool status code for "sum of device guids didn't match" is 5,
classifies to `PoolStatusBadGUIDSum`, and renders exactly
`"bad device GUID checksum"`. -/
theorem claim_C7_bad_guid_sum :
    PoolStatusBadGUIDSum = 5
  ∧ poolStatusString PoolStatusBadGUIDSum = "bad device GUID checksum" :=
  ⟨rfl, rfl⟩

/-- C8: a `VDevState` of `CantOpen` renders exactly `"cannot open"`, a
`VDevAux` of `NoReplicas` renders exactly `"insufficient number of replicas"`,
and `isUsable` applied to `VDevStateCantOpen` returns `false`. -/
theorem claim_C8_cantopen_noreplicas :
    vdevStateString VDevStateCantOpen = "cannot open"
  ∧ vdevAuxString VDevAuxNoReplicas = "insufficient number of replicas"
  ∧ isUsable VDevStateCantOpen = false :=
  ⟨rfl, rfl, rfl⟩

/-- C9: `isUsable s` equals `s > VDevStateCantOpen` for every value, and over
the defined states it is `false` for exactly
`{Unknown, Closed, Offline, Removed, CantOpen}` and `true` for exactly
`{Faulted, Degraded, Healthy}`. -/
theorem claim_C9_usability_boundary :
    (∀ s : Nat, isUsable s = decide (VDevStateCantOpen < s))
  ∧ (∀ s ∈ definedVDevStates,
      (isUsable s = false ↔
        s ∈ [VDevStateUnknown, VDevStateClosed, VDevStateOffline,
          VDevStateRemoved, VDevStateCantOpen])
    ∧ (isUsable s = true ↔
        s ∈ [VDevStateFaulted, VDevStateDegraded, VDevStateHealthy])) :=
  ⟨fun _ => rfl, by decide⟩

/-- C9 witness: the usability boundary applied at concrete defined states
on both sides of the boundary. -/
theorem claim_C9_usability_boundary_witness :
    isUsable VDevStateHealthy = true ∧ isUsable VDevStateCantOpen = false := by
  obtain ⟨-, hb⟩ := claim_C9_usability_boundary
  exact ⟨((hb VDevStateHealthy (by decide)).2).mpr (by decide),
    ((hb VDevStateCantOpen (by decide)).1).mpr (by decide)⟩

/-- C10: `vdevStateString` renders `VDevStateHealthy` as `"online"` (not
`"healthy"`) and `VDevStateUnknown` as
`"uninitialized (or perhaps unknown?)"` (not `"unknown"`), so the rendered
device-health strings differ from the health-scale state names. -/
theorem claim_C10_rendered_names :
    vdevStateString VDevStateHealthy = "online"
  ∧ vdevStateString VDevStateUnknown = "uninitialized (or perhaps unknown?)"
  ∧ ((vdevStateString VDevStateHealthy == "healthy") = false)
  ∧ ((vdevStateString VDevStateUnknown == "unknown") = false) := by
  refine ⟨rfl, rfl, by decide, by decide⟩
